import Mathlib

/-!
Formal model of the 16 Psyche power-system simulation engine
(`src/unnamed/part_002`, TypeScript).

Numbers of the source are modelled as real numbers (`ℝ`): the
arithmetic of the engine (`+`, `*`, `/`, `Math.cos`, `Math.pow`, `Math.max`, `Math.min`,
`Math.floor`, `%`) is read with ideal real semantics.  JavaScript `%`
(remainder with the sign of the dividend) is modelled by `jsMod`.
`Math.pow` with real exponent is `Real.rpow`.  The `pvCell` and `battery`
references, which the source null-checks at run time, are modelled as
`Option` fields, and `runSimulation` returns `Except String SimulationResult`
mirroring the thrown configuration errors.

On an empty series the `reduce` and spread idioms of the source produce `NaN` or
`±Infinity`, which have no counterpart in `ℝ`; the list reductions below
return `0` on the empty list instead.  No theorem in this file depends on
the value of a metric taken over an empty series.
-/

noncomputable section

open Real Classical

/-- JavaScript remainder `a % b`: `a - b * t` where `t` is `a / b` truncated
toward zero (floor for a nonnegative quotient, ceiling otherwise). -/
def jsMod (a b : ℝ) : ℝ :=
  a - b * (if 0 ≤ a / b then (⌊a / b⌋ : ℝ) else (⌈a / b⌉ : ℝ))

/-- Environmental constant table `PSYCHE_CONSTANTS` of the source. -/
def SOLAR_CONSTANT_EARTH : ℝ := 1361

/-- Distance from the Sun in astronomical units. -/
def DISTANCE_AU : ℝ := 2.9

/-- Asteroid rotation period in hours. -/
def ROTATION_PERIOD : ℝ := 4.2

/-- Night-side temperature floor in Kelvin. -/
def TEMP_MIN : ℝ := 100

/-- Day-side temperature ceiling in Kelvin. -/
def TEMP_MAX : ℝ := 270

/-- Reference temperature for PV cells in Kelvin. -/
def TEMP_REF : ℝ := 298

/-- Source `getSolarIrradiance`: inverse-square attenuation of the 1-AU
solar constant. -/
def getSolarIrradiance : ℝ :=
  SOLAR_CONSTANT_EARTH / DISTANCE_AU ^ 2

/-- Source `getSunAngle`: rotation phase of the asteroid, as an angle
`(time * (1/rotation_period) * 2π) % 2π`. -/
def getSunAngle (timeHours : ℝ) : ℝ :=
  jsMod (timeHours * (1 / ROTATION_PERIOD) * 2 * π) (2 * π)

/-- Source `getSurfaceTemperature`: linear interpolation between the night
floor and the day ceiling weighted by `max 0 (cos sunAngle)`. -/
def getSurfaceTemperature (sunAngle : ℝ) : ℝ :=
  TEMP_MIN + (TEMP_MAX - TEMP_MIN) * max 0 (Real.cos sunAngle)

/-- Source `calculateConcentratorPower`: irradiance collected on the
concentrator area with cosine (night/day) loss. -/
def calculateConcentratorPower (timeHours concentratorArea concentratorEfficiency : ℝ) : ℝ :=
  getSolarIrradiance * concentratorArea * concentratorEfficiency *
    max 0 (Real.cos (getSunAngle timeHours))

/-- Source `calculatePVPower`: PV conversion of the delivered power with
temperature derating floored at `0.1`.  The `concentrationRatio` and
`pvArea` parameters are unused, exactly as in the source (they are
underscore-prefixed there). -/
def calculatePVPower (concentratedPower _concentrationRatio _pvArea
    pvEfficiency tempCoefficient surfaceTemp : ℝ) : ℝ :=
  concentratedPower *
    (pvEfficiency * max 0.1 (1 + tempCoefficient * (surfaceTemp - TEMP_REF)))

/-- Source `calculatePowerConsumption`: base load, plus instrument load by
day (`cos sunAngle > 0`), plus communication load when `time % 6 < 0.5`,
plus heater load by night, accumulated sequentially as in the source. -/
def calculatePowerConsumption (timeHours baseLoad : ℝ) : ℝ :=
  let isDay := 0 < Real.cos (getSunAngle timeHours)
  let afterInstruments := if isDay then baseLoad + baseLoad * 1.5 else baseLoad
  let afterComms :=
    if jsMod timeHours 6 < 0.5 then afterInstruments + baseLoad * 0.8 else afterInstruments
  if ¬ isDay then afterComms + baseLoad * 1.0 else afterComms

/-- Source `updateBatterySOC`: integrate net power over one time step with
direction-dependent efficiency, then clamp the state of charge to
`[0.15, 0.95]`. -/
def updateBatterySOC (currentSOC powerNet batteryCapacity
    chargeEfficiency dischargeEfficiency timeStep : ℝ) : ℝ :=
  let energyChange := powerNet * timeStep
  let adjustedEnergy :=
    if 0 < energyChange then energyChange * chargeEfficiency
    else energyChange / dischargeEfficiency
  let newSOC := currentSOC + adjustedEnergy / batteryCapacity
  max 0.15 (min 0.95 newSOC)

/-- Concentrator technology record: the fields of `ConcentratorTechnology`
read by the engine (the catalog carries further metadata fields — areal
mass, TRL, era — that the engine never reads). -/
structure ConcentratorTechnology where
  concentration_ratio : ℝ
  efficiency : ℝ

/-- Photovoltaic technology record: the fields of `PVTechnology` read by
the engine. -/
structure PVTechnology where
  efficiency : ℝ
  temp_coefficient : ℝ
  degradation_rate : ℝ

/-- Battery technology record: the fields of `BatteryTechnology` read by
the engine. -/
structure BatteryTechnology where
  charge_efficiency : ℝ
  discharge_efficiency : ℝ

/-- Source `SimulationConfig`.  The source declares `pvCell` and `battery`
non-null but null-checks them at run time; `Option` captures the checked
possibility of absence, as for the explicitly nullable `concentrator`. -/
structure SimulationConfig where
  concentrator : Option ConcentratorTechnology
  pvCell : Option PVTechnology
  battery : Option BatteryTechnology
  concentratorArea : ℝ
  pvArea : ℝ
  batteryCapacity : ℝ
  baseLoad : ℝ
  durationHours : ℝ
  yearsInOperation : ℝ

/-- Metrics: the `metrics` record of `SimulationResult`. -/
structure SimulationMetrics where
  avg_power_generated : ℝ
  peak_power_generated : ℝ
  avg_power_consumed : ℝ
  peak_power_consumed : ℝ
  energy_balance : ℝ
  min_soc : ℝ
  final_soc : ℝ
  system_health : ℕ
  viable : Prop

/-- Source `SimulationResult`: the five parallel per-step series plus the
metrics record. -/
structure SimulationResult where
  time : List ℝ
  power_generated : List ℝ
  power_consumed : List ℝ
  battery_soc : List ℝ
  temperature : List ℝ
  metrics : SimulationMetrics

/-- The `reduce((a, b) => a + b, 0)` left fold of the source. -/
def listSum (l : List ℝ) : ℝ := l.foldl (fun a b => a + b) 0

/-- Spread maximum `Math.max(...l)`: maximum of a list; `0` (in place of `-Infinity`) on
the empty list, a value no theorem below depends on. -/
def listMax : List ℝ → ℝ
  | [] => 0
  | x :: xs => xs.foldl max x

/-- Spread minimum `Math.min(...l)`: minimum of a list; `0` (in place of `Infinity`) on
the empty list, a value no theorem below depends on. -/
def listMin : List ℝ → ℝ
  | [] => 0
  | x :: xs => xs.foldl min x

/-- Degradation-adjusted PV efficiency, computed once before the loop:
`pvEff = efficiency * (1 - degradation_rate) ^ yearsInOperation`. -/
def pvEffD (cfg : SimulationConfig) (pv : PVTechnology) : ℝ :=
  pv.efficiency * (1 - pv.degradation_rate) ^ cfg.yearsInOperation

/-- Degradation-adjusted concentrator efficiency, computed once before the
loop: `efficiency * (1 - 0.001) ^ yearsInOperation` when a concentrator is
configured, `0` otherwise. -/
def concEffD (cfg : SimulationConfig) : ℝ :=
  match cfg.concentrator with
  | some c => c.efficiency * (1 - 0.001) ^ cfg.yearsInOperation
  | none => 0

/-- The generation computed by the loop body of `runSimulation` at time
`t`: the concentrator branch feeds `calculateConcentratorPower` into
`calculatePVPower`; the direct-PV branch inlines irradiance, cosine loss
and temperature derating. -/
def powerGeneratedAt (cfg : SimulationConfig) (pv : PVTechnology) (t : ℝ) : ℝ :=
  match cfg.concentrator with
  | some c =>
      calculatePVPower
        (calculateConcentratorPower t cfg.concentratorArea (concEffD cfg))
        c.concentration_ratio cfg.pvArea (pvEffD cfg pv) pv.temp_coefficient
        (getSurfaceTemperature (getSunAngle t))
  | none =>
      getSolarIrradiance * cfg.pvArea * max 0 (Real.cos (getSunAngle t)) *
        (pvEffD cfg pv * max 0.1 (1 + pv.temp_coefficient *
          (getSurfaceTemperature (getSunAngle t) - TEMP_REF)))

/-- Net power at time `t`: generation minus consumption. -/
def netPowerAt (cfg : SimulationConfig) (pv : PVTechnology) (t : ℝ) : ℝ :=
  powerGeneratedAt cfg pv t - calculatePowerConsumption t cfg.baseLoad

/-- The battery state threaded through the loop: `socAfter cfg pv bat n` is
`currentSOC` after `n` executions of the loop body, starting from the
initial `0.80`; step `n` integrates the net power at `t = n * 0.1`. -/
def socAfter (cfg : SimulationConfig) (pv : PVTechnology) (bat : BatteryTechnology) : ℕ → ℝ
  | 0 => 0.80
  | n + 1 =>
      updateBatterySOC (socAfter cfg pv bat n) (netPowerAt cfg pv ((n : ℝ) * 0.1))
        cfg.batteryCapacity bat.charge_efficiency bat.discharge_efficiency 0.1

/-- Step count `numSteps = Math.floor(durationHours / 0.1)`; the `for` loop executes
`max 0 numSteps` iterations, hence `Int.toNat`. -/
def numSteps (cfg : SimulationConfig) : ℕ :=
  (⌊cfg.durationHours / 0.1⌋).toNat

/-- The metrics block computed after the loop, as a function of the
generated, consumed and SOC series. -/
def mkMetrics (powerGenerated powerConsumed batterySOC : List ℝ) : SimulationMetrics :=
  let timeStep : ℝ := 0.1
  let avgPowerGenerated := listSum powerGenerated / powerGenerated.length
  let peakPowerGenerated := listMax powerGenerated
  let avgPowerConsumed := listSum powerConsumed / powerConsumed.length
  let peakPowerConsumed := listMax powerConsumed
  let totalEnergyGenerated := powerGenerated.foldl (fun sum p => sum + p * timeStep) 0
  let totalEnergyConsumed := powerConsumed.foldl (fun sum p => sum + p * timeStep) 0
  let energyBalance := totalEnergyGenerated - totalEnergyConsumed
  let minSOC := listMin batterySOC
  let finalSOC := batterySOC.getLastD 0
  { avg_power_generated := avgPowerGenerated
    peak_power_generated := peakPowerGenerated
    avg_power_consumed := avgPowerConsumed
    peak_power_consumed := peakPowerConsumed
    energy_balance := energyBalance
    min_soc := minSOC
    final_soc := finalSOC
    system_health :=
      (if 0.20 < minSOC then 1 else 0) + (if 0.40 < minSOC then 1 else 0) +
      (if 0 < energyBalance then 1 else 0) + (if 0.70 < finalSOC then 1 else 0) +
      (if avgPowerConsumed * 1.2 < avgPowerGenerated then 1 else 0)
    viable := 0.20 < minSOC ∧ 0 < energyBalance }

/-- Source `runSimulation`: validate the mandatory components, then run the
fixed-step loop and reduce the series into metrics.  Each recorded SOC is
the state after the update of its step. -/
def runSimulation (config : SimulationConfig) : Except String SimulationResult :=
  match config.pvCell with
  | none => Except.error "Cannot run simulation without photovoltaic cells"
  | some pv =>
    match config.battery with
    | none => Except.error "Cannot run simulation without battery"
    | some bat =>
      let n := numSteps config
      let powerGenerated := (List.range n).map fun (step : ℕ) =>
        powerGeneratedAt config pv ((step : ℝ) * 0.1)
      let powerConsumed := (List.range n).map fun (step : ℕ) =>
        calculatePowerConsumption ((step : ℝ) * 0.1) config.baseLoad
      let batterySOC := (List.range n).map fun (step : ℕ) => socAfter config pv bat (step + 1)
      Except.ok
        { time := (List.range n).map fun (step : ℕ) => (step : ℝ) * 0.1
          power_generated := powerGenerated
          power_consumed := powerConsumed
          battery_soc := batterySOC
          temperature := (List.range n).map fun (step : ℕ) =>
            getSurfaceTemperature (getSunAngle ((step : ℝ) * 0.1))
          metrics := mkMetrics powerGenerated powerConsumed batterySOC }

/-- Illumination factor of the specification glossary:
`max 0 (cos (sunAngle t))`. -/
def illuminationFactor (t : ℝ) : ℝ :=
  max 0 (Real.cos (getSunAngle t))

/-! ### Helper lemmas -/

lemma jsMod_zero_left (b : ℝ) : jsMod 0 b = 0 := by
  simp [jsMod]

lemma getSunAngle_zero : getSunAngle 0 = 0 := by
  simp [getSunAngle, jsMod_zero_left]

lemma cos_getSunAngle_zero : Real.cos (getSunAngle 0) = 1 := by
  rw [getSunAngle_zero, Real.cos_zero]

lemma getSurfaceTemperature_at_zero : getSurfaceTemperature (getSunAngle 0) = 270 := by
  rw [getSurfaceTemperature, cos_getSunAngle_zero]
  norm_num [TEMP_MIN, TEMP_MAX]

lemma getSolarIrradiance_eq : getSolarIrradiance = 136100 / 841 := by
  norm_num [getSolarIrradiance, SOLAR_CONSTANT_EARTH, DISTANCE_AU]

lemma getSolarIrradiance_pos : 0 < getSolarIrradiance := by
  rw [getSolarIrradiance_eq]; norm_num

/-- The clamp of the battery integrator always lands in `[0.15, 0.95]`. -/
lemma updateBatterySOC_mem_range (soc p cap ce de ts : ℝ) :
    0.15 ≤ updateBatterySOC soc p cap ce de ts ∧
      updateBatterySOC soc p cap ce de ts ≤ 0.95 := by
  unfold updateBatterySOC
  constructor
  · exact le_max_left _ _
  · exact max_le (by norm_num) (min_le_left _ _)

/-- Shape of a successful run: the five series are maps over the step
range and the metrics are the reduction of the three power/SOC series. -/
lemma runSimulation_ok (cfg : SimulationConfig) (pv : PVTechnology)
    (bat : BatteryTechnology) (hpv : cfg.pvCell = some pv)
    (hbat : cfg.battery = some bat) :
    runSimulation cfg = Except.ok
      { time := (List.range (numSteps cfg)).map fun (step : ℕ) => (step : ℝ) * 0.1
        power_generated := (List.range (numSteps cfg)).map fun (step : ℕ) =>
          powerGeneratedAt cfg pv ((step : ℝ) * 0.1)
        power_consumed := (List.range (numSteps cfg)).map fun (step : ℕ) =>
          calculatePowerConsumption ((step : ℝ) * 0.1) cfg.baseLoad
        battery_soc := (List.range (numSteps cfg)).map fun (step : ℕ) =>
          socAfter cfg pv bat (step + 1)
        temperature := (List.range (numSteps cfg)).map fun (step : ℕ) =>
          getSurfaceTemperature (getSunAngle ((step : ℝ) * 0.1))
        metrics := mkMetrics
          ((List.range (numSteps cfg)).map fun (step : ℕ) =>
            powerGeneratedAt cfg pv ((step : ℝ) * 0.1))
          ((List.range (numSteps cfg)).map fun (step : ℕ) =>
            calculatePowerConsumption ((step : ℝ) * 0.1) cfg.baseLoad)
          ((List.range (numSteps cfg)).map fun (step : ℕ) =>
            socAfter cfg pv bat (step + 1)) } := by
  unfold runSimulation
  rw [hpv, hbat]

/-- A run whose step count is `1` produces singleton series sampled at
`t = 0`. -/
lemma runSimulation_one_step (cfg : SimulationConfig) (pv : PVTechnology)
    (bat : BatteryTechnology) (hpv : cfg.pvCell = some pv)
    (hbat : cfg.battery = some bat) (hn : numSteps cfg = 1) :
    runSimulation cfg = Except.ok
      { time := [0]
        power_generated := [powerGeneratedAt cfg pv 0]
        power_consumed := [calculatePowerConsumption 0 cfg.baseLoad]
        battery_soc := [socAfter cfg pv bat 1]
        temperature := [getSurfaceTemperature (getSunAngle 0)]
        metrics := mkMetrics [powerGeneratedAt cfg pv 0]
          [calculatePowerConsumption 0 cfg.baseLoad] [socAfter cfg pv bat 1] } := by
  rw [runSimulation_ok cfg pv bat hpv hbat, hn]
  have h0 : List.range 1 = [0] := rfl
  rw [h0]
  simp

/-- A run whose step count is `0` produces empty series. -/
lemma runSimulation_zero_steps (cfg : SimulationConfig) (pv : PVTechnology)
    (bat : BatteryTechnology) (hpv : cfg.pvCell = some pv)
    (hbat : cfg.battery = some bat) (hn : numSteps cfg = 0) :
    runSimulation cfg = Except.ok
      { time := [], power_generated := [], power_consumed := []
        battery_soc := [], temperature := [], metrics := mkMetrics [] [] [] } := by
  rw [runSimulation_ok cfg pv bat hpv hbat, hn]
  simp

/-- A zero base load makes every load term vanish. -/
lemma calculatePowerConsumption_zero_load (t : ℝ) :
    calculatePowerConsumption t 0 = 0 := by
  simp [calculatePowerConsumption]

/-! ### Concrete configurations used by witnesses and counterexamples -/

/-- A trivial PV cell: zero efficiency, no temperature sensitivity, no
degradation. -/
def pv0 : PVTechnology :=
  { efficiency := 0, temp_coefficient := 0, degradation_rate := 0 }

/-- A lossless battery. -/
def bat0 : BatteryTechnology :=
  { charge_efficiency := 1, discharge_efficiency := 1 }

/-- A minimal one-step configuration: no concentrator, zero PV area, zero
base load, duration `0.1` h. -/
def cfg0 : SimulationConfig :=
  { concentrator := none, pvCell := some pv0, battery := some bat0
    concentratorArea := 0, pvArea := 0, batteryCapacity := 1, baseLoad := 0
    durationHours := 0.1, yearsInOperation := 0 }

lemma numSteps_cfg0 : numSteps cfg0 = 1 := by
  norm_num [numSteps, cfg0]

lemma powerGeneratedAt_cfg0 (t : ℝ) : powerGeneratedAt cfg0 pv0 t = 0 := by
  simp [powerGeneratedAt, cfg0]

lemma socAfter_cfg0_one : socAfter cfg0 pv0 bat0 1 = 0.8 := by
  have hnet : ∀ t : ℝ, netPowerAt cfg0 pv0 t = 0 := by
    intro t
    simp [netPowerAt, powerGeneratedAt_cfg0,
      show cfg0.baseLoad = 0 from rfl, calculatePowerConsumption_zero_load]
  simp [socAfter, hnet, updateBatterySOC]
  norm_num [min_def, max_def]

/-- A successful run can only come from present PV cell and battery. -/
lemma runSimulation_ok_cases (cfg : SimulationConfig) (r : SimulationResult)
    (h : runSimulation cfg = Except.ok r) :
    ∃ pv bat, cfg.pvCell = some pv ∧ cfg.battery = some bat := by
  unfold runSimulation at h
  rcases hpv : cfg.pvCell with _ | pv
  · rw [hpv] at h; exact absurd h (by simp)
  rcases hbat : cfg.battery with _ | bat
  · rw [hpv, hbat] at h; exact absurd h (by simp)
  exact ⟨pv, bat, rfl, rfl⟩

/-- Inversion of a successful run: the result is the explicit record of
mapped series and reduced metrics. -/
lemma runSimulation_ok_shape (cfg : SimulationConfig) (r : SimulationResult)
    (h : runSimulation cfg = Except.ok r) :
    ∃ pv bat, cfg.pvCell = some pv ∧ cfg.battery = some bat ∧
      r = { time := (List.range (numSteps cfg)).map fun (step : ℕ) => (step : ℝ) * 0.1
            power_generated := (List.range (numSteps cfg)).map fun (step : ℕ) =>
              powerGeneratedAt cfg pv ((step : ℝ) * 0.1)
            power_consumed := (List.range (numSteps cfg)).map fun (step : ℕ) =>
              calculatePowerConsumption ((step : ℝ) * 0.1) cfg.baseLoad
            battery_soc := (List.range (numSteps cfg)).map fun (step : ℕ) =>
              socAfter cfg pv bat (step + 1)
            temperature := (List.range (numSteps cfg)).map fun (step : ℕ) =>
              getSurfaceTemperature (getSunAngle ((step : ℝ) * 0.1))
            metrics := mkMetrics
              ((List.range (numSteps cfg)).map fun (step : ℕ) =>
                powerGeneratedAt cfg pv ((step : ℝ) * 0.1))
              ((List.range (numSteps cfg)).map fun (step : ℕ) =>
                calculatePowerConsumption ((step : ℝ) * 0.1) cfg.baseLoad)
              ((List.range (numSteps cfg)).map fun (step : ℕ) =>
                socAfter cfg pv bat (step + 1)) } := by
  obtain ⟨pv, bat, hpv, hbat⟩ := runSimulation_ok_cases cfg r h
  rw [runSimulation_ok cfg pv bat hpv hbat] at h
  exact ⟨pv, bat, hpv, hbat, (Except.ok.inj h).symm⟩

/-! ### C1 -/

/-- C1: for every configuration accepted by `runSimulation`, every entry
of the returned `battery_soc` series lies within `[0.15, 0.95]`: the SOC
recorded after each update never leaves this range. -/
theorem battery_soc_within_bounds (cfg : SimulationConfig)
    (r : SimulationResult) (h : runSimulation cfg = Except.ok r) :
    ∀ s ∈ r.battery_soc, 0.15 ≤ s ∧ s ≤ 0.95 := by
  obtain ⟨pv, bat, hpv, hbat, rfl⟩ := runSimulation_ok_shape cfg r h
  intro s hs
  simp only [List.mem_map, List.mem_range] at hs
  obtain ⟨i, -, rfl⟩ := hs
  rw [socAfter]
  exact updateBatterySOC_mem_range _ _ _ _ _ _

/-- Witness for C1: the one-step run of `cfg0` records SOC `0.8`, which
the theorem places in `[0.15, 0.95]`. -/
theorem battery_soc_within_bounds_witness : (0.15 : ℝ) ≤ 0.8 ∧ (0.8 : ℝ) ≤ 0.95 := by
  have h := battery_soc_within_bounds cfg0 _
    (runSimulation_one_step cfg0 pv0 bat0 rfl rfl numSteps_cfg0)
    (socAfter cfg0 pv0 bat0 1) (by simp)
  rwa [socAfter_cfg0_one] at h

/-! ### C2 -/

/-- C2: in every completed run, `viable` holds exactly when
`min_soc > 0.20` and `energy_balance > 0`, both comparisons strict; in
particular a run with `energy_balance = 0` is not viable. -/
theorem run_viable_iff (cfg : SimulationConfig) (r : SimulationResult)
    (h : runSimulation cfg = Except.ok r) :
    (r.metrics.viable ↔ 0.20 < r.metrics.min_soc ∧ 0 < r.metrics.energy_balance) ∧
      (r.metrics.energy_balance = 0 → ¬ r.metrics.viable) := by
  obtain ⟨pv, bat, hpv, hbat, rfl⟩ := runSimulation_ok_shape cfg r h
  refine ⟨Iff.rfl, fun hbal hv => ?_⟩
  exact absurd hbal hv.2.ne'

/-- Witness for C2: the one-step run of `cfg0` has `energy_balance = 0`
(generation and consumption are both zero), so the theorem makes its
metrics non-viable even though its minimum SOC of `0.8` exceeds `0.20`. -/
theorem run_viable_iff_witness :
    ¬ (mkMetrics [powerGeneratedAt cfg0 pv0 0]
        [calculatePowerConsumption 0 cfg0.baseLoad]
        [socAfter cfg0 pv0 bat0 1]).viable := by
  have h := (run_viable_iff cfg0 _
    (runSimulation_one_step cfg0 pv0 bat0 rfl rfl numSteps_cfg0)).2
  exact h (by
    simp [mkMetrics, listSum, powerGeneratedAt_cfg0,
      show cfg0.baseLoad = (0 : ℝ) from rfl, calculatePowerConsumption_zero_load])

/-! ### C3 -/

/-- C3: the battery integrator is exactly
`clamp (soc + adjustedEnergy / capacity) 0.15 0.95`, where the energy
`net * timeStep` is scaled by the charge efficiency when positive and
divided by the discharge efficiency otherwise. -/
theorem updateBatterySOC_closed_form (soc p cap ce de ts : ℝ) (_hcap : 0 < cap) :
    updateBatterySOC soc p cap ce de ts =
      max 0.15 (min 0.95
        (soc + (if 0 < p * ts then p * ts * ce else p * ts / de) / cap)) := rfl

/-- Witness for C3: a charging step at strictly positive capacity. -/
theorem updateBatterySOC_closed_form_witness :
    (0 : ℝ) < 100 ∧ updateBatterySOC 0.8 10 100 0.9 0.8 1 =
      max 0.15 (min 0.95
        (0.8 + (if (0 : ℝ) < 10 * 1 then 10 * 1 * 0.9 else 10 * 1 / 0.8) / 100)) :=
  ⟨by norm_num, updateBatterySOC_closed_form 0.8 10 100 0.9 0.8 1 (by norm_num)⟩

/-! ### C5 -/

/-- Discriminates the error constructor of a simulation outcome. -/
def isSimError : Except String SimulationResult → Bool
  | Except.error _ => true
  | Except.ok _ => false

/-- C5: `runSimulation` fails with a configuration error exactly when the
PV cell or the battery is missing, and succeeds with a result exactly when
both are present. -/
theorem configError_iff_missing (cfg : SimulationConfig) :
    (isSimError (runSimulation cfg) = true ↔
      cfg.pvCell = none ∨ cfg.battery = none) ∧
      (isSimError (runSimulation cfg) = false ↔
        cfg.pvCell ≠ none ∧ cfg.battery ≠ none) := by
  rcases hpv : cfg.pvCell with _ | pv
  · constructor
    · simp [runSimulation, hpv, isSimError]
    · simp [runSimulation, hpv, isSimError]
  rcases hbat : cfg.battery with _ | bat
  · constructor
    · simp [runSimulation, hpv, hbat, isSimError]
    · simp [runSimulation, hpv, hbat, isSimError]
  · constructor
    · simp [runSimulation, hpv, hbat, isSimError]
    · simp [runSimulation, hpv, hbat, isSimError]

/-- A configuration with the PV cell removed. -/
def cfgMissingPV : SimulationConfig := { cfg0 with pvCell := none }

/-- Witness for C5: removing the PV cell from `cfg0` makes the run fail,
and `cfg0` itself runs without error. -/
theorem configError_iff_missing_witness :
    isSimError (runSimulation cfgMissingPV) = true ∧
      isSimError (runSimulation cfg0) = false :=
  ⟨(configError_iff_missing cfgMissingPV).1.mpr (Or.inl rfl),
    (configError_iff_missing cfg0).2.mpr
      ⟨Option.some_ne_none pv0, Option.some_ne_none bat0⟩⟩

/-! ### C6 -/

/-- Consumption at `t = 0`: day (cosine `1`), inside the communication
window, no heater. -/
lemma calculatePowerConsumption_at_zero (b : ℝ) :
    calculatePowerConsumption 0 b = b + b * 1.5 + b * 0.8 := by
  have hd : 0 < Real.cos (getSunAngle 0) := by rw [cos_getSunAngle_zero]; norm_num
  have hc : jsMod 0 6 < 0.5 := by rw [jsMod_zero_left]; norm_num
  simp [calculatePowerConsumption, hd, hc]

/-- C6 (amended): the load is exactly the base load plus three
independently triggered extra loads — `1.5 b` when the illumination factor
is positive, `0.8 b` in the communication window, `1.0 b` when the
illumination factor is nonpositive — and it is at least the base load
whenever the base load is nonnegative. -/
theorem power_consumption_additive (t b : ℝ) :
    calculatePowerConsumption t b =
      b + (if 0 < illuminationFactor t then b * 1.5 else 0) +
        (if jsMod t 6 < 0.5 then b * 0.8 else 0) +
        (if illuminationFactor t ≤ 0 then b * 1.0 else 0) ∧
      (0 ≤ b → b ≤ calculatePowerConsumption t b) := by
  have heq : calculatePowerConsumption t b =
      b + (if 0 < illuminationFactor t then b * 1.5 else 0) +
        (if jsMod t 6 < 0.5 then b * 0.8 else 0) +
        (if illuminationFactor t ≤ 0 then b * 1.0 else 0) := by
    rcases lt_or_le 0 (Real.cos (getSunAngle t)) with hd | hd
    · have h1 : 0 < illuminationFactor t := lt_max_iff.mpr (Or.inr hd)
      have h2 : ¬ illuminationFactor t ≤ 0 := not_le.mpr h1
      simp only [calculatePowerConsumption, illuminationFactor] at *
      simp [hd, h1, h2]
      split_ifs <;> ring
    · have h1 : illuminationFactor t ≤ 0 := max_le le_rfl hd
      have h2 : ¬ 0 < illuminationFactor t := not_lt.mpr h1
      have h3 : ¬ 0 < Real.cos (getSunAngle t) := not_lt.mpr hd
      simp [calculatePowerConsumption, h1, h2, h3]
      split_ifs <;> ring
  refine ⟨heq, fun hb => ?_⟩
  rw [heq]
  split_ifs <;> linarith

/-- Witness for C6: at `t = 0` with base load `100` the load is at least
the base load. -/
theorem power_consumption_additive_witness :
    (0 : ℝ) ≤ 100 ∧ (100 : ℝ) ≤ calculatePowerConsumption 0 100 :=
  ⟨by norm_num, (power_consumption_additive 0 100).2 (by norm_num)⟩

/-- Counterexample for C6 as frozen: for the (unvalidated) negative base
load `-100` the computed load `-330` is strictly below the base load, so
the unqualified clause `result ≥ base load for every base load` fails. -/
theorem power_consumption_below_base :
    calculatePowerConsumption 0 (-100) = -330 ∧ (-330 : ℝ) < -100 := by
  constructor
  · rw [calculatePowerConsumption_at_zero]; norm_num
  · norm_num

/-! ### C10 -/

/-- Day and night are exhaustive, so one of the instrument or heater loads
is always added: the load is at least twice a nonnegative base load. -/
lemma two_mul_base_le_consumption (t b : ℝ) (hb : 0 ≤ b) :
    2 * b ≤ calculatePowerConsumption t b := by
  rcases lt_or_le 0 (Real.cos (getSunAngle t)) with hd | hd
  · simp [calculatePowerConsumption, hd]
    split_ifs <;> linarith
  · have h3 : ¬ 0 < Real.cos (getSunAngle t) := not_lt.mpr hd
    simp [calculatePowerConsumption, h3]
    split_ifs <;> linarith

/-- C10 (amended): with a nonnegative base load every recorded consumption
is at least twice the base load, and for a strictly positive base load it
never equals the bare base load. -/
theorem consumption_at_least_double (cfg : SimulationConfig)
    (r : SimulationResult) (h : runSimulation cfg = Except.ok r)
    (hb : 0 ≤ cfg.baseLoad) :
    ∀ x ∈ r.power_consumed,
      2 * cfg.baseLoad ≤ x ∧ (0 < cfg.baseLoad → x ≠ cfg.baseLoad) := by
  obtain ⟨pv, bat, hpv, hbat, rfl⟩ := runSimulation_ok_shape cfg r h
  intro x hx
  simp only [List.mem_map, List.mem_range] at hx
  obtain ⟨i, -, rfl⟩ := hx
  have h2 := two_mul_base_le_consumption ((i : ℝ) * 0.1) cfg.baseLoad hb
  exact ⟨h2, fun hbp => (lt_of_lt_of_le (by linarith) h2).ne'⟩

/-- The configuration `cfg0` with a positive base load of `100` W. -/
def cfgL : SimulationConfig := { cfg0 with baseLoad := 100 }

lemma numSteps_cfgL : numSteps cfgL = 1 := numSteps_cfg0

/-- Witness for C10: in the one-step run of `cfgL` (base load `100`) the
recorded consumption `330` is at least `200` and differs from `100`. -/
theorem consumption_at_least_double_witness :
    (200 : ℝ) ≤ 330 ∧ (330 : ℝ) ≠ 100 := by
  have h := consumption_at_least_double cfgL _
    (runSimulation_one_step cfgL pv0 bat0 rfl rfl numSteps_cfgL)
    (by norm_num [cfgL, cfg0])
    (calculatePowerConsumption 0 cfgL.baseLoad) (by simp)
  have he : calculatePowerConsumption 0 cfgL.baseLoad = 330 := by
    rw [show cfgL.baseLoad = (100 : ℝ) from rfl, calculatePowerConsumption_at_zero]
    norm_num
  obtain ⟨h1, h2⟩ := h
  rw [he, show cfgL.baseLoad = (100 : ℝ) from rfl] at h1 h2
  exact ⟨by linarith, h2 (by norm_num)⟩

/-! ### C4 -/

/-- C4 (amended): all five series have length `numSteps`, that length
agrees with `floor (duration / 0.1)` whenever the duration is nonnegative
(the loop never terminates early), and `time i = i * 0.1`. -/
theorem series_lengths_and_time (cfg : SimulationConfig)
    (r : SimulationResult) (h : runSimulation cfg = Except.ok r) :
    (r.time.length = numSteps cfg ∧ r.power_generated.length = numSteps cfg ∧
      r.power_consumed.length = numSteps cfg ∧
      r.battery_soc.length = numSteps cfg ∧
      r.temperature.length = numSteps cfg) ∧
      (0 ≤ cfg.durationHours →
        (r.time.length : ℤ) = ⌊cfg.durationHours / 0.1⌋) ∧
      ∀ i (hi : i < r.time.length), r.time.get ⟨i, hi⟩ = (i : ℝ) * 0.1 := by
  obtain ⟨pv, bat, hpv, hbat, rfl⟩ := runSimulation_ok_shape cfg r h
  refine ⟨⟨by simp, by simp, by simp, by simp, by simp⟩, fun hd => ?_, fun i hi => ?_⟩
  · have hq : (0 : ℝ) ≤ cfg.durationHours / 0.1 := div_nonneg hd (by norm_num)
    simp only [List.length_map, List.length_range, numSteps]
    exact Int.toNat_of_nonneg (Int.floor_nonneg.mpr hq)
  · simp [List.get_eq_getElem]

/-- Witness for C4: the one-step run of `cfg0` has series length `1`,
matching `floor (0.1 / 0.1)`, and records `time 0 = 0 * 0.1`. -/
theorem series_lengths_and_time_witness :
    (1 : ℤ) = ⌊cfg0.durationHours / 0.1⌋ ∧ (0 : ℝ) = ((0 : ℕ) : ℝ) * 0.1 := by
  have h := series_lengths_and_time cfg0 _
    (runSimulation_one_step cfg0 pv0 bat0 rfl rfl numSteps_cfg0)
  refine ⟨?_, ?_⟩
  · have h1 := h.2.1 (by norm_num [cfg0])
    simpa using h1
  · exact h.2.2 0 (by simp)

/-- A configuration with negative duration, accepted by the validation. -/
def cfgNeg : SimulationConfig := { cfg0 with durationHours := -1 }

lemma numSteps_cfgNeg : numSteps cfgNeg = 0 := by
  have hq : cfgNeg.durationHours / 0.1 = (-10 : ℝ) := by
    norm_num [cfgNeg, cfg0]
  rw [numSteps, hq]
  norm_num

/-- Counterexample for C4 as frozen: for the accepted configuration with
`duration = -1` the series are empty while `floor (duration / 0.1) = -10`,
so the length does not equal the floor. -/
theorem series_length_negative_duration :
    (runSimulation cfgNeg).map (fun r => (r.time.length : ℤ)) = Except.ok 0 ∧
      ⌊cfgNeg.durationHours / 0.1⌋ = -10 ∧ (0 : ℤ) ≠ -10 := by
  refine ⟨?_, ?_, by norm_num⟩
  · rw [runSimulation_zero_steps cfgNeg pv0 bat0 rfl rfl numSteps_cfgNeg]
    simp [Except.map]
  · have hq : cfgNeg.durationHours / 0.1 = (-10 : ℝ) := by
      norm_num [cfgNeg, cfg0]
    rw [hq]
    norm_num

/-! ### C8 -/

/-- Generation is nonnegative at every time, given nonnegative areas,
nonnegative efficiencies and a degradation rate within `[0, 1]`. -/
lemma powerGeneratedAt_nonneg (cfg : SimulationConfig) (pv : PVTechnology)
    (hA : 0 ≤ cfg.pvArea) (hCA : 0 ≤ cfg.concentratorArea)
    (hE : 0 ≤ pv.efficiency) (_hd0 : 0 ≤ pv.degradation_rate)
    (hd1 : pv.degradation_rate ≤ 1)
    (hc : ∀ c, cfg.concentrator = some c → 0 ≤ c.efficiency) (t : ℝ) :
    0 ≤ powerGeneratedAt cfg pv t := by
  have hpvEff : 0 ≤ pvEffD cfg pv :=
    mul_nonneg hE (Real.rpow_nonneg (by linarith) _)
  have hfac : (0 : ℝ) ≤ max 0.1 (1 + pv.temp_coefficient *
      (getSurfaceTemperature (getSunAngle t) - TEMP_REF)) :=
    le_trans (by norm_num) (le_max_left _ _)
  rcases hcc : cfg.concentrator with _ | c
  · simp only [powerGeneratedAt, hcc]
    exact mul_nonneg
      (mul_nonneg (mul_nonneg getSolarIrradiance_pos.le hA) (le_max_left 0 _))
      (mul_nonneg hpvEff hfac)
  · have hce : 0 ≤ concEffD cfg := by
      rw [concEffD, hcc]
      exact mul_nonneg (hc c hcc) (Real.rpow_nonneg (by norm_num) _)
    simp only [powerGeneratedAt, hcc, calculatePVPower, calculateConcentratorPower]
    exact mul_nonneg
      (mul_nonneg (mul_nonneg (mul_nonneg getSolarIrradiance_pos.le hCA) hce)
        (le_max_left 0 _))
      (mul_nonneg hpvEff hfac)

/-- C8 (amended): for every accepted configuration with nonnegative areas,
efficiencies in `[0, 1]` and degradation rate in `[0, 1]` — not merely
nonnegative — every recorded generated power is nonnegative, in both the
concentrator and the direct-PV branch. -/
theorem generated_power_nonneg (cfg : SimulationConfig) (pv : PVTechnology)
    (r : SimulationResult) (hpv : cfg.pvCell = some pv)
    (h : runSimulation cfg = Except.ok r)
    (hA : 0 ≤ cfg.pvArea) (hCA : 0 ≤ cfg.concentratorArea)
    (hE : 0 ≤ pv.efficiency) (_hE1 : pv.efficiency ≤ 1)
    (hd0 : 0 ≤ pv.degradation_rate) (hd1 : pv.degradation_rate ≤ 1)
    (hc : ∀ c, cfg.concentrator = some c →
      0 ≤ c.efficiency ∧ c.efficiency ≤ 1) :
    ∀ x ∈ r.power_generated, 0 ≤ x := by
  obtain ⟨pv2, bat, hpv2, hbat, rfl⟩ := runSimulation_ok_shape cfg r h
  rw [hpv] at hpv2
  obtain rfl := Option.some.inj hpv2
  intro x hx
  simp only [List.mem_map, List.mem_range] at hx
  obtain ⟨i, -, rfl⟩ := hx
  exact powerGeneratedAt_nonneg cfg pv hA hCA hE hd0 hd1
    (fun c hcc => (hc c hcc).1) _

/-- A realistic PV cell: full efficiency, no temperature sensitivity,
50 % annual degradation. -/
def pv7 : PVTechnology :=
  { efficiency := 1, temp_coefficient := 0, degradation_rate := 1/2 }

/-- Configuration `cfg0` with one square metre of directly exposed PV. -/
def cfg7 : SimulationConfig :=
  { cfg0 with pvCell := some pv7, pvArea := 1, batteryCapacity := 10000 }

lemma numSteps_cfg7 : numSteps cfg7 = 1 := numSteps_cfg0

lemma powerGeneratedAt_cfg7 : powerGeneratedAt cfg7 pv7 0 = 136100 / 841 := by
  simp [powerGeneratedAt, cfg7, cfg0, pv7, pvEffD, cos_getSunAngle_zero,
    getSurfaceTemperature_at_zero, getSolarIrradiance_eq, TEMP_REF]
  norm_num

/-- Witness for C8: the one-step run of `cfg7` records generation
`136100 / 841 ≈ 161.8` W, which the theorem makes nonnegative. -/
theorem generated_power_nonneg_witness : (0 : ℝ) ≤ 136100 / 841 := by
  have h := generated_power_nonneg cfg7 pv7 _ rfl
    (runSimulation_one_step cfg7 pv7 bat0 rfl rfl numSteps_cfg7)
    (by norm_num [cfg7, cfg0]) (by norm_num [cfg7, cfg0])
    (by norm_num [pv7]) (by norm_num [pv7]) (by norm_num [pv7])
    (by norm_num [pv7]) (by simp [cfg7, cfg0])
    (powerGeneratedAt cfg7 pv7 0) (by simp)
  rwa [powerGeneratedAt_cfg7] at h

/-- A PV cell with the out-of-range degradation rate `2`, which the
engine accepts. -/
def pvBad : PVTechnology :=
  { efficiency := 1, temp_coefficient := 0, degradation_rate := 2 }

/-- Configuration `cfg7` with the over-degrading cell after one year of operation. -/
def cfgBad : SimulationConfig :=
  { cfg7 with pvCell := some pvBad, yearsInOperation := 1 }

lemma numSteps_cfgBad : numSteps cfgBad = 1 := numSteps_cfg0

lemma powerGeneratedAt_cfgBad : powerGeneratedAt cfgBad pvBad 0 = -(136100 / 841) := by
  simp [powerGeneratedAt, cfgBad, cfg7, cfg0, pvBad, pvEffD, cos_getSunAngle_zero,
    getSurfaceTemperature_at_zero, getSolarIrradiance_eq, TEMP_REF,
    show (1 : ℝ) - 2 = -1 by norm_num]
  norm_num

/-- Counterexample for C8 as frozen: with the merely nonnegative
degradation rate `2` (allowed by the claim) and one year of operation,
`(1 - 2) ^ 1 = -1` makes the recorded generated power strictly negative. -/
theorem generated_power_negative :
    (runSimulation cfgBad).map (fun r => r.power_generated) =
      Except.ok [-(136100 / 841 : ℝ)] ∧ -(136100 / 841 : ℝ) < 0 := by
  constructor
  · rw [runSimulation_one_step cfgBad pvBad bat0 rfl rfl numSteps_cfgBad]
    simp [Except.map, powerGeneratedAt_cfgBad]
  · norm_num

/-! ### C9 -/

/-- With a concentrator configured, the generation of the loop body does
not depend on `pvArea`: `calculatePVPower` discards that argument. -/
lemma powerGeneratedAt_pvArea_irrel (cfg : SimulationConfig)
    (pv : PVTechnology) (c : ConcentratorTechnology)
    (hcc : cfg.concentrator = some c) (a a' t : ℝ) :
    powerGeneratedAt { cfg with pvArea := a } pv t =
      powerGeneratedAt { cfg with pvArea := a' } pv t := by
  simp only [powerGeneratedAt, concEffD, pvEffD, hcc, calculatePVPower]

/-- With a concentrator configured, the battery trajectory does not depend
on `pvArea`. -/
lemma socAfter_pvArea_irrel (cfg : SimulationConfig) (pv : PVTechnology)
    (bat : BatteryTechnology) (c : ConcentratorTechnology)
    (hcc : cfg.concentrator = some c) (a a' : ℝ) : ∀ n : ℕ,
    socAfter { cfg with pvArea := a } pv bat n =
      socAfter { cfg with pvArea := a' } pv bat n
  | 0 => rfl
  | n + 1 => by
      simp only [socAfter, netPowerAt,
        socAfter_pvArea_irrel cfg pv bat c hcc a a' n,
        powerGeneratedAt_pvArea_irrel cfg pv c hcc a a']

/-- C9: two configurations that are identical except for `pvArea` and both
carry a concentrator produce identical simulation outcomes. -/
theorem pvArea_irrelevant_with_concentrator (cfg : SimulationConfig)
    (c : ConcentratorTechnology) (hcc : cfg.concentrator = some c)
    (a a' : ℝ) :
    runSimulation { cfg with pvArea := a } =
      runSimulation { cfg with pvArea := a' } := by
  rcases hpv : cfg.pvCell with _ | pv
  · simp [runSimulation, hpv]
  rcases hbat : cfg.battery with _ | bat
  · simp [runSimulation, hpv, hbat]
  rw [← hpv, ← hbat]
  rw [runSimulation_ok { cfg with pvArea := a } pv bat hpv hbat,
    runSimulation_ok { cfg with pvArea := a' } pv bat hpv hbat]
  have e1 : (fun (step : ℕ) =>
      powerGeneratedAt { cfg with pvArea := a } pv ((step : ℝ) * 0.1)) =
      fun (step : ℕ) =>
        powerGeneratedAt { cfg with pvArea := a' } pv ((step : ℝ) * 0.1) :=
    funext fun s => powerGeneratedAt_pvArea_irrel cfg pv c hcc a a' _
  have e2 : (fun (step : ℕ) =>
      socAfter { cfg with pvArea := a } pv bat (step + 1)) =
      fun (step : ℕ) => socAfter { cfg with pvArea := a' } pv bat (step + 1) :=
    funext fun s => socAfter_pvArea_irrel cfg pv bat c hcc a a' (s + 1)
  rw [e1, e2]
  rfl

/-- A concentrator technology for the witness configuration. -/
def conc1 : ConcentratorTechnology :=
  { concentration_ratio := 10, efficiency := 1/2 }

/-- Configuration `cfg0` with a concentrator attached. -/
def cfgC : SimulationConfig := { cfg0 with concentrator := some conc1 }

/-- Witness for C9: changing only `pvArea` from `1` to `2` under the
concentrator leaves the whole outcome unchanged. -/
theorem pvArea_irrelevant_with_concentrator_witness :
    runSimulation { cfgC with pvArea := 1 } =
      runSimulation { cfgC with pvArea := 2 } :=
  pvArea_irrelevant_with_concentrator cfgC conc1 rfl 1 2

/-! ### C7 -/

lemma illuminationFactor_zero : illuminationFactor 0 = 1 := by
  rw [illuminationFactor, cos_getSunAngle_zero]
  norm_num

/-- Increasing only the years of operation strictly decreases the loop
generation of the loop body at any illuminated time, provided the PV efficiency is
positive, the degradation rate lies strictly between `0` and `1`, and the
active collecting branch has positive area and efficiency. -/
lemma powerGeneratedAt_strict_decrease (cfg : SimulationConfig)
    (pv : PVTechnology) (y' : ℝ) (hy : cfg.yearsInOperation < y')
    (hE : 0 < pv.efficiency) (hd0 : 0 < pv.degradation_rate)
    (hd1 : pv.degradation_rate < 1)
    (hcon : ∀ c, cfg.concentrator = some c →
      0 < c.efficiency ∧ 0 < cfg.concentratorArea)
    (hdir : cfg.concentrator = none → 0 < cfg.pvArea)
    (t : ℝ) (hill : 0 < illuminationFactor t) :
    powerGeneratedAt { cfg with yearsInOperation := y' } pv t <
      powerGeneratedAt cfg pv t := by
  have h01 : (0 : ℝ) < 1 - pv.degradation_rate := by linarith
  have h11 : 1 - pv.degradation_rate < 1 := by linarith
  have hrpow : (1 - pv.degradation_rate) ^ y' <
      (1 - pv.degradation_rate) ^ cfg.yearsInOperation :=
    Real.rpow_lt_rpow_of_exponent_gt h01 h11 hy
  have hpvlt : pvEffD { cfg with yearsInOperation := y' } pv < pvEffD cfg pv := by
    simp only [pvEffD]
    exact mul_lt_mul_of_pos_left hrpow hE
  have hpvpos : 0 < pvEffD { cfg with yearsInOperation := y' } pv := by
    simp only [pvEffD]
    exact mul_pos hE (Real.rpow_pos_of_pos h01 _)
  have hfacpos : (0 : ℝ) < max 0.1 (1 + pv.temp_coefficient *
      (getSurfaceTemperature (getSunAngle t) - TEMP_REF)) :=
    lt_of_lt_of_le (by norm_num) (le_max_left _ _)
  have hillm : 0 < max 0 (Real.cos (getSunAngle t)) := hill
  rcases Option.eq_none_or_eq_some cfg.concentrator with hcc | ⟨c, hcc⟩
  · have hA := hdir hcc
    simp only [powerGeneratedAt, hcc]
    exact mul_lt_mul_of_pos_left (mul_lt_mul_of_pos_right hpvlt hfacpos)
      (mul_pos (mul_pos getSolarIrradiance_pos hA) hillm)
  · obtain ⟨hce, hCA⟩ := hcon c hcc
    have h999 : ((1 : ℝ) - 0.001) ^ y' < (1 - 0.001) ^ cfg.yearsInOperation :=
      Real.rpow_lt_rpow_of_exponent_gt (by norm_num) (by norm_num) hy
    have hclt : concEffD { cfg with concentrator := some c, yearsInOperation := y' } <
        concEffD cfg := by
      simp only [concEffD, hcc]
      exact mul_lt_mul_of_pos_left h999 hce
    have hcpos : 0 < concEffD { cfg with concentrator := some c, yearsInOperation := y' } := by
      simp only [concEffD]
      exact mul_pos hce (Real.rpow_pos_of_pos (by norm_num) _)
    have hpvlt2 : pvEffD { cfg with concentrator := some c, yearsInOperation := y' } pv <
        pvEffD cfg pv := hpvlt
    have hpvpos2 : 0 < pvEffD { cfg with concentrator := some c, yearsInOperation := y' } pv :=
      hpvpos
    simp only [powerGeneratedAt, hcc, calculatePVPower, calculateConcentratorPower]
    apply mul_lt_mul''
    · exact mul_lt_mul_of_pos_right
        (mul_lt_mul_of_pos_left hclt (mul_pos getSolarIrradiance_pos hCA)) hillm
    · exact mul_lt_mul_of_pos_right hpvlt2 hfacpos
    · exact (mul_nonneg (mul_nonneg
        (mul_nonneg getSolarIrradiance_pos.le hCA.le) hcpos.le) hillm.le)
    · exact (mul_pos hpvpos2 hfacpos).le

/-- C7 (amended): for two accepted configurations identical except for a
strictly larger `yearsInOperation`, with positive PV efficiency,
degradation rate strictly between `0` and `1`, and a positive collecting
aperture (positive `pvArea` without a concentrator; positive concentrator
efficiency and area with one), the later-year run generates strictly less
power at every step whose illumination factor is positive. -/
theorem degradation_strictly_decreases_generation (cfg : SimulationConfig)
    (pv : PVTechnology) (y' : ℝ) (r r' : SimulationResult)
    (hpv : cfg.pvCell = some pv) (hy : cfg.yearsInOperation < y')
    (hE : 0 < pv.efficiency) (hd0 : 0 < pv.degradation_rate)
    (hd1 : pv.degradation_rate < 1)
    (hcon : ∀ c, cfg.concentrator = some c →
      0 < c.efficiency ∧ 0 < cfg.concentratorArea)
    (hdir : cfg.concentrator = none → 0 < cfg.pvArea)
    (h : runSimulation cfg = Except.ok r)
    (h' : runSimulation { cfg with yearsInOperation := y' } = Except.ok r')
    (i : ℕ) (hi : i < r.power_generated.length)
    (hi' : i < r'.power_generated.length)
    (hill : 0 < illuminationFactor ((i : ℝ) * 0.1)) :
    r'.power_generated.get ⟨i, hi'⟩ < r.power_generated.get ⟨i, hi⟩ := by
  obtain ⟨pv1, bat1, hpv1, hbat1, rfl⟩ := runSimulation_ok_shape cfg r h
  rw [hpv] at hpv1
  obtain rfl := Option.some.inj hpv1
  obtain ⟨pv2, bat2, hpv2, hbat2, rfl⟩ := runSimulation_ok_shape _ r' h'
  have hpv2' : cfg.pvCell = some pv2 := hpv2
  rw [hpv] at hpv2'
  obtain rfl := Option.some.inj hpv2'
  simp only [List.get_eq_getElem, List.getElem_map, List.getElem_range]
  exact powerGeneratedAt_strict_decrease cfg pv y' hy hE hd0 hd1 hcon hdir _ hill

/-- Configuration `cfg7` after one year of operation. -/
def cfg7y : SimulationConfig := { cfg7 with yearsInOperation := 1 }

lemma numSteps_cfg7y : numSteps cfg7y = 1 := numSteps_cfg0

lemma powerGeneratedAt_cfg7y : powerGeneratedAt cfg7y pv7 0 = 68050 / 841 := by
  simp [powerGeneratedAt, cfg7y, cfg7, cfg0, pv7, pvEffD, cos_getSunAngle_zero,
    getSurfaceTemperature_at_zero, getSolarIrradiance_eq, TEMP_REF]
  norm_num

/-- Witness for C7: `cfg7` (50 % yearly degradation) generates
`136100 / 841` W at step 0 with `years = 0` and only `68050 / 841` W with
`years = 1`. -/
theorem degradation_strictly_decreases_generation_witness :
    (68050 / 841 : ℝ) < 136100 / 841 := by
  have h := degradation_strictly_decreases_generation cfg7 pv7 1 _ _ rfl
    (by norm_num [cfg7, cfg0]) (by norm_num [pv7]) (by norm_num [pv7])
    (by norm_num [pv7]) (by simp [cfg7, cfg0])
    (fun _ => by norm_num [cfg7, cfg0])
    (runSimulation_one_step cfg7 pv7 bat0 rfl rfl numSteps_cfg7)
    (runSimulation_one_step cfg7y pv7 bat0 rfl rfl numSteps_cfg7y)
    0 (by simp) (by simp)
    (by rw [show ((0 : ℕ) : ℝ) * 0.1 = 0 by norm_num, illuminationFactor_zero]
        norm_num)
  have h2 : powerGeneratedAt cfg7y pv7 0 < powerGeneratedAt cfg7 pv7 0 := h
  rwa [powerGeneratedAt_cfg7, powerGeneratedAt_cfg7y] at h2

/-- Configuration `cfg0` after one year of operation. -/
def cfg0y : SimulationConfig := { cfg0 with yearsInOperation := 1 }

lemma numSteps_cfg0y : numSteps cfg0y = 1 := numSteps_cfg0

lemma powerGeneratedAt_cfg0y (t : ℝ) : powerGeneratedAt cfg0y pv0 t = 0 := by
  simp [powerGeneratedAt, cfg0y, cfg0]

/-- Counterexample for C7 as frozen: with zero PV area (accepted by the
run) the generated series is `[0]` for both `years = 0` and `years = 1`,
so the strictly-smaller claim fails at the illuminated step 0. -/
theorem degradation_not_strict_at_zero_area :
    (runSimulation cfg0).map (fun r => r.power_generated) = Except.ok [(0 : ℝ)] ∧
      (runSimulation cfg0y).map (fun r => r.power_generated) =
        Except.ok [(0 : ℝ)] ∧
      cfg0.yearsInOperation < cfg0y.yearsInOperation ∧
      0 < illuminationFactor 0 ∧ ¬ ((0 : ℝ) < 0) := by
  refine ⟨?_, ?_, by norm_num [cfg0, cfg0y], ?_, by norm_num⟩
  · rw [runSimulation_one_step cfg0 pv0 bat0 rfl rfl numSteps_cfg0]
    simp [Except.map, powerGeneratedAt_cfg0]
  · rw [runSimulation_one_step cfg0y pv0 bat0 rfl rfl numSteps_cfg0y]
    simp [Except.map, powerGeneratedAt_cfg0y]
  · rw [illuminationFactor_zero]
    norm_num

/-- Counterexample for C10 as frozen: with base load `0` (allowed by the
bound `b ≥ 0` of the claim) the recorded consumption equals the bare base load. -/
theorem consumption_equals_base_at_zero_load :
    (runSimulation cfg0).map (fun r => r.power_consumed) =
      Except.ok [(0 : ℝ)] ∧ cfg0.baseLoad = 0 := by
  constructor
  · rw [runSimulation_one_step cfg0 pv0 bat0 rfl rfl numSteps_cfg0]
    simp [Except.map, show cfg0.baseLoad = (0 : ℝ) from rfl,
      calculatePowerConsumption_zero_load]
  · rfl

end
